import Mathlib

/-!
Verification of the TLE ingestion core of the tawhiri repository
(`src/tawhiri/common/common.py`): line normalization, record grouping,
validation, fixed-column element parsing, single-epoch catalog building
and multi-epoch indexing.

Python strings are modelled as Lean `String` (a list of unicode
characters, matching Python's `str` where `len` counts code points and
slicing is by code point).  Python `float` fields are modelled as `ℚ`:
every numeric field parsed by this code is a plain decimal literal, which
`ℚ` represents exactly.  Python dicts are modelled as association lists
with in-place update (Python 3.7+ insertion-order semantics).
-/

namespace Tawhiri

/-! ## Python string primitives -/

/-- Code points for which Python `str.isspace` is true; these are the
characters removed by `str.strip()` and matched by `re` class `\s`. -/
def pySpaceCodes : List Nat :=
  [9, 10, 11, 12, 13, 28, 29, 30, 31, 32, 0x85, 0xA0, 0x1680,
   0x2000, 0x2001, 0x2002, 0x2003, 0x2004, 0x2005, 0x2006, 0x2007,
   0x2008, 0x2009, 0x200A, 0x2028, 0x2029, 0x202F, 0x205F, 0x3000]

/-- Python whitespace test (`str.isspace` on a single character). -/
def pyIsSpace (c : Char) : Bool := pySpaceCodes.contains c.toNat

/-- `str.strip()` on a character list: drop whitespace from both ends. -/
def pyStripChars (l : List Char) : List Char :=
  ((l.dropWhile pyIsSpace).reverse.dropWhile pyIsSpace).reverse

/-- Python `s.strip()`. -/
def pyStrip (s : String) : String := ⟨pyStripChars s.data⟩

/-- Python `len(s)` (number of code points). -/
def pyLen (s : String) : Nat := s.data.length

/-- Python `s[a:b]` for `0 ≤ a ≤ b` (clamping at the string's end). -/
def pySlice (s : String) (a b : Nat) : String := ⟨(s.data.drop a).take (b - a)⟩

/-- Python `s[a:]` for `a ≥ 0`. -/
def pyDrop (s : String) (a : Nat) : String := ⟨s.data.drop a⟩

/-- Python `s[i]` for in-range `i` (all uses below are guarded by length
checks, so the default is never reached). -/
def pyGet (s : String) (i : Nat) : Char := s.data.getD i (Char.ofNat 0)

/-- Python `s.startswith(p)`. -/
def pyStartsWith (s p : String) : Bool := p.data.isPrefixOf s.data

/-! ## Python numeric conversions

`int(s)` / `float(s)` on the decimal literals appearing in TLE fields.
(Underscore digit separators and the literals `inf` / `nan`, which Python
also accepts, never appear in fixed-column TLE data and are not
modelled.) -/

/-- Digit-list value in base 10. -/
def natOfDigits (l : List Char) : Nat :=
  l.foldl (fun a c => 10 * a + (c.toNat - 48)) 0

/-- A non-empty all-digit list, as a number. -/
def parseDigits? (l : List Char) : Option Nat :=
  if l.isEmpty then none
  else if l.all Char.isDigit then some (natOfDigits l) else none

/-- Python `int(s)` (base 10): strip whitespace, optional sign, digits. -/
def pyInt? (s : String) : Option Int :=
  match pyStripChars s.data with
  | '+' :: rest => (parseDigits? rest).map Int.ofNat
  | '-' :: rest => (parseDigits? rest).map (fun n => -(n : Int))
  | rest => (parseDigits? rest).map Int.ofNat

/-- Mantissa of a Python float literal: `digits`, `digits.`, `.digits`
or `digits.digits`, with at least one digit overall.  Returned as the
digit value and the number of fractional digits, so that the mantissa
denotes `value / 10 ^ fracLen`. -/
def parseMantissaRep? (l : List Char) : Option (Nat × Nat) :=
  let ip := l.takeWhile Char.isDigit
  match l.dropWhile Char.isDigit with
  | [] => if ip.isEmpty then none else some (natOfDigits ip, 0)
  | '.' :: frac =>
    if frac.all Char.isDigit && !(ip.isEmpty && frac.isEmpty) then
      some (natOfDigits (ip ++ frac), frac.length)
    else none
  | _ => none

/-- Exponent part after `e`/`E`: optional sign and digits. -/
def parseExponent? (l : List Char) : Option Int :=
  match l with
  | '+' :: rest => (parseDigits? rest).map Int.ofNat
  | '-' :: rest => (parseDigits? rest).map (fun n => -(n : Int))
  | rest => (parseDigits? rest).map Int.ofNat

/-- Python `float(s)` on a decimal literal, as an exact base-10
representation: `some (m, e)` denotes the value `m * 10 ^ e`. -/
def pyFloatRep? (s : String) : Option (Int × Int) :=
  let l := pyStripChars s.data
  let (sgn, l) : Int × List Char :=
    match l with
    | '+' :: r => (1, r)
    | '-' :: r => (-1, r)
    | r => (1, r)
  let mant := l.takeWhile (fun c => c != 'e' && c != 'E')
  match l.dropWhile (fun c => c != 'e' && c != 'E') with
  | [] => (parseMantissaRep? mant).map (fun p => (sgn * p.1, -(p.2 : Int)))
  | _ :: ex =>
    match parseMantissaRep? mant, parseExponent? ex with
    | some (v, f), some e => some (sgn * v, e - (f : Int))
    | _, _ => none

/-- The rational number `m * 10 ^ e` denoted by a decimal representation.
(Built with `mkRat` so that it evaluates by kernel reduction.) -/
def ratOfRep (m e : Int) : ℚ :=
  if 0 ≤ e then mkRat (m * 10 ^ e.toNat) 1 else mkRat m (10 ^ (-e).toNat)

/-- Python `float(s)` on decimal literals, as an exact rational. -/
def pyFloat? (s : String) : Option ℚ :=
  (pyFloatRep? s).map fun p => ratOfRep p.1 p.2

/-! ## validate_tle -/

/-- `validate_tle(line1, line2)` from `common.py`: length ≥ 69 for both
lines, leading line-number characters `'1'` / `'2'`, and equal stripped
NORAD-identifier slices `line[2:7]`.  (The `try/except` around the slice
comparison in the source can never fire: Python string slicing is total.) -/
def validate_tle (line1 line2 : String) : Bool :=
  if pyLen line1 < 69 || pyLen line2 < 69 then false
  else if !(pyGet line1 0 == '1' && pyGet line2 0 == '2') then false
  else if pyStrip (pySlice line1 2 7) != pyStrip (pySlice line2 2 7) then false
  else true

/-! ## parse_tle_line1 / parse_tle_line2

Field-conversion failures raise `ValueError` in Python; here they are
collapsed into a single `.error` value (the claims under verification
are only about success versus failure, except for the explicit
too-short guard whose message is modelled verbatim). -/

/-- The typed record produced by `parse_tle_line1`. -/
structure TleLine1 where
  line_number : Int
  norad_id : String
  classification : Char
  intl_designator : String
  epoch_year : Int
  epoch_day : ℚ
  mean_motion_derivative : ℚ
  mean_motion_2nd_derivative : String
  bstar : String
  ephemeris_type : Int
  element_number : Int
  checksum : Int
deriving DecidableEq

/-- The typed record produced by `parse_tle_line2`. -/
structure TleLine2 where
  line_number : Int
  norad_id : String
  inclination : ℚ
  raan : ℚ
  eccentricity : ℚ
  arg_of_perigee : ℚ
  mean_anomaly : ℚ
  mean_motion : ℚ
  revolution_number : Int
  checksum : Int
deriving DecidableEq

/-- `parse_tle_line1(line1)` from `common.py`. -/
def parse_tle_line1 (line1 : String) : Except String TleLine1 :=
  if pyLen line1 < 69 then
    .error ("TLE line 1 too short: " ++ toString (pyLen line1) ++ " < 69")
  else
    match pyInt? ⟨[pyGet line1 0]⟩, pyInt? (pySlice line1 18 20),
      pyFloat? (pySlice line1 20 32), pyFloat? (pySlice line1 33 43),
      pyInt? ⟨[pyGet line1 62]⟩, pyInt? (pySlice line1 64 68),
      pyInt? ⟨[pyGet line1 68]⟩ with
    | some ln, some ey, some ed, some mmd, some et, some en, some ck =>
      .ok { line_number := ln
            norad_id := pyStrip (pySlice line1 2 7)
            classification := pyGet line1 7
            intl_designator := pyStrip (pySlice line1 9 17)
            epoch_year := ey
            epoch_day := ed
            mean_motion_derivative := mmd
            mean_motion_2nd_derivative := pyStrip (pySlice line1 44 52)
            bstar := pyStrip (pySlice line1 53 61)
            ephemeris_type := et
            element_number := en
            checksum := ck }
    | _, _, _, _, _, _, _ => .error "invalid literal in TLE line 1"

/-- `parse_tle_line2(line2)` from `common.py`.  The eccentricity field is
parsed from the digits-only column range with an implicit leading
`"0."`. -/
def parse_tle_line2 (line2 : String) : Except String TleLine2 :=
  if pyLen line2 < 69 then
    .error ("TLE line 2 too short: " ++ toString (pyLen line2) ++ " < 69")
  else
    match pyInt? ⟨[pyGet line2 0]⟩, pyFloat? (pySlice line2 8 16),
      pyFloat? (pySlice line2 17 25), pyFloat? (⟨['0', '.']⟩ ++ pySlice line2 26 33),
      pyFloat? (pySlice line2 34 42), pyFloat? (pySlice line2 43 51),
      pyFloat? (pySlice line2 52 63), pyInt? (pySlice line2 63 68),
      pyInt? ⟨[pyGet line2 68]⟩ with
    | some ln, some incl, some ra, some ecc, some ap, some ma, some mm, some rn, some ck =>
      .ok { line_number := ln
            norad_id := pyStrip (pySlice line2 2 7)
            inclination := incl
            raan := ra
            eccentricity := ecc
            arg_of_perigee := ap
            mean_anomaly := ma
            mean_motion := mm
            revolution_number := rn
            checksum := ck }
    | _, _, _, _, _, _, _, _, _ => .error "invalid literal in TLE line 2"

/-! ## load_tles -/

/-- The single-epoch catalog: an insertion-ordered mapping from NORAD
identifier to `(name, line1, line2)`, modelling a Python dict. -/
abbrev TleDict := List (String × String × String × String)

/-- Python dict assignment `d[k] = v`: update in place if the key is
present (keeping its position), otherwise append. -/
def dictInsert (d : TleDict) (k : String) (v : String × String × String) : TleDict :=
  match d with
  | [] => [(k, v)]
  | (k', v') :: rest =>
    if k' = k then (k, v) :: rest else (k', v') :: dictInsert rest k v

/-- Python dict lookup `d[k]` (as an option). -/
def dictLookup (d : TleDict) (k : String) : Option (String × String × String) :=
  match d with
  | [] => none
  | (k', v') :: rest => if k' = k then some v' else dictLookup rest k

/-- One loop-body pass of `load_tles` once a candidate group
`(name, line1, line2)` has been cut: validate, warn-and-skip on failure,
and otherwise store under the stripped NORAD id unless that id is empty
(the empty-id case stores nothing and logs nothing). -/
def loadTlesStep (d : TleDict) (w : List String) (name line1 line2 : String) :
    TleDict × List String :=
  if !validate_tle line1 line2 then
    (d, w ++ ["Invalid TLE format, skipping: " ++ name])
  else
    let norad_id := pyStrip (pySlice line1 2 7)
    if norad_id ≠ "" then (dictInsert d norad_id (name, line1, line2), w) else (d, w)

/-- The cursor loop of `load_tles` (`while i < len(lines) - 1`), as a
recursion over the not-yet-consumed suffix of the line list.  A 3-line
group is cut when at least 3 lines remain and the current line does not
start with `"1 "` (stripping a leading `"0 "` name marker); otherwise a
2-line group named `"Unknown"` is cut.  Structurally recursive on a fuel
bound: every iteration consumes at least two lines, so fuel equal to the
line count (supplied by `loadTlesAux`) is never exhausted. -/
def loadTlesCore : Nat → TleDict → List String → List String → TleDict × List String
  | fuel + 1, d, w, l0 :: l1 :: l2 :: rest =>
    if ¬ pyStartsWith l0 "1 " then
      let name := if pyStartsWith l0 "0 " then pyStrip (pyDrop l0 2) else l0
      let (d', w') := loadTlesStep d w name l1 l2
      loadTlesCore fuel d' w' rest
    else
      let (d', w') := loadTlesStep d w "Unknown" l0 l1
      loadTlesCore fuel d' w' (l2 :: rest)
  | _, d, w, [l0, l1] => loadTlesStep d w "Unknown" l0 l1
  | _, d, w, _ => (d, w)

/-- The `load_tles` loop with enough fuel for the whole input. -/
def loadTlesAux (d : TleDict) (w : List String) (lines : List String) :
    TleDict × List String :=
  loadTlesCore lines.length d w lines

/-- `load_tles` on an already-normalized line list: the catalog, the
warnings logged along the way, and the count carried by the final
`"Loaded {n} TLEs"` info message (the size of the final mapping). -/
def load_tles (lines : List String) : TleDict × List String × Nat :=
  let (d, w) := loadTlesAux [] [] lines
  (d, w, d.length)

/-! ## read_multi_epoch_tle_file -/

/-- The multi-epoch catalog: an insertion-ordered mapping from satellite
name to the ordered list of `(label, line1, line2)` records. -/
abbrev MultiDict := List (String × List (String × String × String))

/-- Python `d.setdefault(k, []).append(v)`: append to the list stored at
`k`, creating the key (at the end) if absent. -/
def multiAppend (d : MultiDict) (k : String) (v : String × String × String) : MultiDict :=
  match d with
  | [] => [(k, [v])]
  | (k', vs) :: rest =>
    if k' = k then (k', vs ++ [v]) :: rest else (k', vs) :: multiAppend rest k v

/-- The epoch pattern `^1\s+\S+\s+\S+\s+(\d{5}\.\d+)` of
`read_multi_epoch_tle_file`, returning the captured group.  Because the
character classes of consecutive `\s+` / `\S+` atoms are disjoint,
greedy matching never backtracks and the regex is equivalent to this
maximal-munch scan. -/
def matchEpoch (line1 : String) : Option String :=
  match line1.data with
  | '1' :: rest =>
    let s1 := rest.takeWhile pyIsSpace
    let r1 := rest.dropWhile pyIsSpace
    let t1 := r1.takeWhile (fun c => !pyIsSpace c)
    let r2 := r1.dropWhile (fun c => !pyIsSpace c)
    let s2 := r2.takeWhile pyIsSpace
    let r3 := r2.dropWhile pyIsSpace
    let t2 := r3.takeWhile (fun c => !pyIsSpace c)
    let r4 := r3.dropWhile (fun c => !pyIsSpace c)
    let s3 := r4.takeWhile pyIsSpace
    let r5 := r4.dropWhile pyIsSpace
    if s1.isEmpty || t1.isEmpty || s2.isEmpty || t2.isEmpty || s3.isEmpty then none
    else
      let d5 := r5.take 5
      if d5.length == 5 && d5.all Char.isDigit then
        match r5.drop 5 with
        | '.' :: r6 =>
          let ds := r6.takeWhile Char.isDigit
          if ds.isEmpty then none else some ⟨d5 ++ '.' :: ds⟩
        | _ => none
      else none
  | _ => none

/-- Round a rational to the nearest integer, ties to even (the rounding
of Python's fixed-point formatting). -/
def roundHalfEvenInt (n : Int) (d : Nat) : Int :=
  let q := n / (d : Int)
  let r := n % (d : Int)
  if 2 * r < (d : Int) then q
  else if (d : Int) < 2 * r then q + 1
  else if q % 2 = 0 then q else q + 1

/-- Two-digit zero padding for the fractional part. -/
def pad2 (n : Nat) : String :=
  if n < 10 then ⟨'0' :: (toString n).data⟩ else toString n

/-- Python `f"{x:.2f}"` on an exact rational (the decimal literals this
code formats are exact, so the binary-double rounding of CPython and
this decimal rounding agree on every value the pipeline produces). -/
def fmt2 (x : ℚ) : String :=
  let n := roundHalfEvenInt (x.num * 100) x.den
  let m := n.natAbs
  (if n < 0 then "-" else "") ++ toString (m / 100) ++ ⟨['.']⟩ ++ pad2 (m % 100)

/-- The two-digit epoch year pivot of `read_multi_epoch_tle_file`:
`year = 2000 + year if year < 57 else 1900 + year`. -/
def pivotYear (year : Int) : Int :=
  if year < 57 then 2000 + year else 1900 + year

/-- The `try`-block of `read_multi_epoch_tle_file` building the record
label: decode `int(epoch_val[:2])` and `float(epoch_val[2:])` and format
`f"{name} @ {year}:{day:.2f}"`; any conversion failure falls back to
`f"{name} @ {epoch_val}"`. -/
def epochLabel (name epoch_val : String) : String :=
  match pyInt? (pySlice epoch_val 0 2), pyFloat? (pyDrop epoch_val 2) with
  | some y, some d =>
    name ++ " @ " ++ toString (pivotYear y) ++ ⟨[':']⟩ ++ fmt2 d
  | _, _ => name ++ " @ " ++ epoch_val

/-- The cursor loop of `read_multi_epoch_tle_file`
(`while i < len(lines) - 2`): fixed triples, no 2-line fallback. -/
def readMultiEpochAux (d : MultiDict) : List String → MultiDict
  | name :: line1 :: line2 :: rest =>
    let epoch_val := (matchEpoch line1).getD "unknown"
    readMultiEpochAux (multiAppend d name (epochLabel name epoch_val, line1, line2)) rest
  | _ => d

/-- `read_multi_epoch_tle_file` on an already-normalized line list. -/
def read_multi_epoch_tle_file (lines : List String) : MultiDict :=
  readMultiEpochAux [] lines

/-! ## _lines_from_source

The source is a filesystem path (whose existence and byte content are
made explicit), a byte buffer, a readable stream yielding bytes or text,
or anything else.  UTF-8 decoding models CPython's incremental decoder:
an ill-formed sequence consumes its maximal valid prefix (at least one
byte) and yields the handler's output — nothing for `errors='ignore'`
(which the source uses), one U+FFFD for `errors='replace'`. -/

/-- Lower bound of the accepted second byte after a given lead byte
(tightened for `E0`/`F0` to exclude overlong encodings). -/
def utf8SecondLo (b : Nat) : Nat :=
  if b == 0xE0 then 0xA0 else if b == 0xF0 then 0x90 else 0x80

/-- Upper bound of the accepted second byte after a given lead byte
(tightened for `ED` to exclude surrogates and `F4` to stay below
U+110000). -/
def utf8SecondHi (b : Nat) : Nat :=
  if b == 0xED then 0x9F else if b == 0xF4 then 0x8F else 0xBF

/-- Is `b` a valid continuation byte (`0x80–0xBF`)? -/
def utf8Cont (b : Nat) : Bool := 0x80 ≤ b && b ≤ 0xBF

/-- UTF-8 decoding of a byte list; `repl` is what an ill-formed sequence
decodes to (`[]` for `errors='ignore'`, `[U+FFFD]` for
`errors='replace'`).  Structural recursion on a fuel bound: every step
consumes at least one byte, so fuel equal to the input length (supplied
by `decodeUtf8`) is never exhausted. -/
def decodeUtf8Core (repl : List Char) : Nat → List Nat → List Char
  | 0, _ => []
  | _, [] => []
  | fuel + 1, b :: rest =>
    if b < 0x80 then Char.ofNat b :: decodeUtf8Core repl fuel rest
    else if 0xC2 ≤ b && b ≤ 0xDF then
      match rest with
      | c1 :: r1 =>
        if utf8Cont c1 then
          Char.ofNat ((b - 0xC0) * 0x40 + (c1 - 0x80)) :: decodeUtf8Core repl fuel r1
        else repl ++ decodeUtf8Core repl fuel (c1 :: r1)
      | [] => repl
    else if 0xE0 ≤ b && b ≤ 0xEF then
      match rest with
      | c1 :: r1 =>
        if utf8SecondLo b ≤ c1 && c1 ≤ utf8SecondHi b then
          match r1 with
          | c2 :: r2 =>
            if utf8Cont c2 then
              Char.ofNat ((b - 0xE0) * 0x1000 + (c1 - 0x80) * 0x40 + (c2 - 0x80)) ::
                decodeUtf8Core repl fuel r2
            else repl ++ decodeUtf8Core repl fuel (c2 :: r2)
          | [] => repl
        else repl ++ decodeUtf8Core repl fuel (c1 :: r1)
      | [] => repl
    else if 0xF0 ≤ b && b ≤ 0xF4 then
      match rest with
      | c1 :: r1 =>
        if utf8SecondLo b ≤ c1 && c1 ≤ utf8SecondHi b then
          match r1 with
          | c2 :: r2 =>
            if utf8Cont c2 then
              match r2 with
              | c3 :: r3 =>
                if utf8Cont c3 then
                  Char.ofNat ((b - 0xF0) * 0x40000 + (c1 - 0x80) * 0x1000 +
                      (c2 - 0x80) * 0x40 + (c3 - 0x80)) :: decodeUtf8Core repl fuel r3
                else repl ++ decodeUtf8Core repl fuel (c3 :: r3)
              | [] => repl
            else repl ++ decodeUtf8Core repl fuel (c2 :: r2)
          | [] => repl
        else repl ++ decodeUtf8Core repl fuel (c1 :: r1)
      | [] => repl
    else repl ++ decodeUtf8Core repl fuel rest

/-- UTF-8 decoding with enough fuel for the whole input. -/
def decodeUtf8 (repl : List Char) (l : List Nat) : List Char :=
  decodeUtf8Core repl l.length l

/-- `bytes.decode('utf-8', errors='ignore')` — what the source's
normalizer actually uses: ill-formed sequences are dropped. -/
def decodeUtf8Ignore (l : List Nat) : String := ⟨decodeUtf8 [] l⟩

/-- Modelled from the spec: decoding "with invalid byte sequences
replaced", i.e. `errors='replace'` — each ill-formed sequence becomes
U+FFFD.  Present only to compare the spec's wording against the code. -/
def decodeUtf8Replace (l : List Nat) : String := ⟨decodeUtf8 [Char.ofNat 0xFFFD] l⟩

/-- The line-break characters of Python `str.splitlines`. -/
def isSplitlinesBreak (c : Char) : Bool :=
  c.toNat ∈ [10, 11, 12, 13, 28, 29, 30, 0x85, 0x2028, 0x2029]

/-- Python `str.splitlines` (no `keepends`): `\r\n` counts as a single
break; a trailing break adds no empty final line. -/
def pySplitlinesChars (cur : List Char) : List Char → List (List Char)
  | [] => if cur.isEmpty then [] else [cur.reverse]
  | '\r' :: '\n' :: rest => cur.reverse :: pySplitlinesChars [] rest
  | c :: rest =>
    if isSplitlinesBreak c then cur.reverse :: pySplitlinesChars [] rest
    else pySplitlinesChars (c :: cur) rest

/-- Python `s.splitlines()`. -/
def pySplitlines (s : String) : List String :=
  (pySplitlinesChars [] s.data).map fun l => ⟨l⟩

/-- Line contents yielded by iterating a text-mode file in universal
newlines mode: breaks are `\n`, `\r\n` and `\r` only (the yielded
terminators are irrelevant because every line is stripped). -/
def fileLinesChars (cur : List Char) : List Char → List (List Char)
  | [] => if cur.isEmpty then [] else [cur.reverse]
  | '\r' :: '\n' :: rest => cur.reverse :: fileLinesChars [] rest
  | '\r' :: rest => cur.reverse :: fileLinesChars [] rest
  | '\n' :: rest => cur.reverse :: fileLinesChars [] rest
  | c :: rest => fileLinesChars (c :: cur) rest

/-- Lines of a text-mode file iteration. -/
def fileLines (s : String) : List String :=
  (fileLinesChars [] s.data).map fun l => ⟨l⟩

/-- `[line.strip() for line in ls if line.strip()]`. -/
def stripFilter (ls : List String) : List String :=
  (ls.map pyStrip).filter fun l => l ≠ ""

/-- What a stream's `read()` returns: bytes or already-decoded text. -/
inductive ReadResult where
  | bytes (content : List Nat)
  | text (s : String)

/-- A source handed to `_lines_from_source`: a filesystem path (with its
existence bit and, when it exists, its byte content), a byte buffer, an
object exposing `read`, or any other value. -/
inductive Source where
  | path (exists_ : Bool) (content : List Nat)
  | bytes (content : List Nat)
  | stream (r : ReadResult)
  | other

/-- The exceptions `_lines_from_source` raises. -/
inductive SourceError where
  | fileNotFound
  | unsupported
deriving DecidableEq

/-- `_lines_from_source(source)` from `common.py`: dispatch on the
source's type, decode UTF-8 with `errors='ignore'`, split into lines,
strip each and drop the blank ones. -/
def lines_from_source (source : Source) : Except SourceError (List String) :=
  match source with
  | .path ex content =>
    if !ex then .error .fileNotFound
    else .ok (stripFilter (fileLines (decodeUtf8Ignore content)))
  | .bytes content => .ok (stripFilter (pySplitlines (decodeUtf8Ignore content)))
  | .stream (.bytes content) => .ok (stripFilter (pySplitlines (decodeUtf8Ignore content)))
  | .stream (.text s) => .ok (stripFilter (pySplitlines s))
  | .other => .error .unsupported

/-- `load_tles` including its call to `_lines_from_source`: the only
exceptions that escape are those of the normalizer. -/
def load_tles_from_source (source : Source) :
    Except SourceError (TleDict × List String × Nat) :=
  match lines_from_source source with
  | .error e => .error e
  | .ok lines => .ok (load_tles lines)

/-- Decidable equality for `Except`, to let concrete normalizer results
be checked by evaluation. -/
instance {ε α : Type} [DecidableEq ε] [DecidableEq α] : DecidableEq (Except ε α) :=
  fun a b =>
    match a, b with
    | .error e, .error f =>
      if h : e = f then .isTrue (by rw [h]) else .isFalse (by simp [h])
    | .ok x, .ok y =>
      if h : x = y then .isTrue (by rw [h]) else .isFalse (by simp [h])
    | .error _, .ok _ => .isFalse (by simp)
    | .ok _, .error _ => .isFalse (by simp)

/-! ## Record grouping, factored out

`load_tles` interleaves group cutting and validation in one loop; the
spec describes them as two components (Record Grouper and Catalog
Builder).  `groupLines` and `buildCatalog` are that decomposition; the
equivalence with the loop is proved below. -/

/-- The Record Grouper heuristic, exactly as in the `load_tles` cursor
loop: stop with fewer than 2 remaining lines; cut a 3-line group when at
least 3 lines remain and the current line does not start with `"1 "`
(stripping a leading `"0 "` marker from the name); otherwise cut a
2-line group named `"Unknown"`. -/
def groupLinesCore : Nat → List String → List (String × String × String)
  | fuel + 1, l0 :: l1 :: l2 :: rest =>
    if ¬ pyStartsWith l0 "1 " then
      (if pyStartsWith l0 "0 " then pyStrip (pyDrop l0 2) else l0, l1, l2) ::
        groupLinesCore fuel rest
    else ("Unknown", l0, l1) :: groupLinesCore fuel (l2 :: rest)
  | _, [l0, l1] => [("Unknown", l0, l1)]
  | _, _ => []

/-- The Record Grouper with enough fuel for the whole input. -/
def groupLines (lines : List String) : List (String × String × String) :=
  groupLinesCore lines.length lines

/-- The Catalog Builder: fold `loadTlesStep` over candidate groups. -/
def buildCatalog (d : TleDict) (w : List String) :
    List (String × String × String) → TleDict × List String
  | [] => (d, w)
  | (name, line1, line2) :: gs =>
    let (d', w') := loadTlesStep d w name line1 line2
    buildCatalog d' w' gs

/-! ## Statement helpers and concrete fixtures -/

/-- The 1-indexed fixed-column ranges the spec speaks in: columns `a–b`
of a TLE line (so `colSlice s a b = s[a-1:b]` in Python terms). -/
def colSlice (s : String) (a b : Nat) : String := pySlice s (a - 1) b

/-- The line list of a sequence of 3-line groups, for stating how the
multi-epoch indexer consumes its input. -/
def tripleLines (gs : List (String × String × String)) : List String :=
  gs.flatMap fun g => [g.1, g.2.1, g.2.2]

/-- The invariant each stored catalog entry `(id, name, line1, line2)`
satisfies: non-empty key, key equal to both stripped identifier slices,
and a validated line pair. -/
def goodEntry (e : String × String × String × String) : Prop :=
  e.1 ≠ "" ∧ e.1 = pyStrip (pySlice e.2.2.1 2 7) ∧
    e.1 = pyStrip (pySlice e.2.2.2 2 7) ∧ validate_tle e.2.2.1 e.2.2.2 = true

/-- The ISS name line of the spec's scenario input. -/
def issName : String := "ISS (ZARYA)"

/-- The ISS line1 of the spec's scenario input (69 characters). -/
def iss1 : String :=
  "1 25544U 98067A   25326.50000000  .00016717  00000-0  10270-3 0  9005"

/-- The ISS line2 of the spec's scenario input (69 characters). -/
def iss2 : String :=
  "2 25544  51.6400 208.5800 0002571  89.2100  53.4900 15.54225995123456"

/-- A second valid pair with NORAD id `00005` (the ISS lines with the
identifier columns rewritten). -/
def satb1 : String :=
  "1 00005U 98067A   25326.50000000  .00016717  00000-0  10270-3 0  9005"

/-- Line 2 matching `satb1`. -/
def satb2 : String :=
  "2 00005  51.6400 208.5800 0002571  89.2100  53.4900 15.54225995123456"

/-- A line1 whose identifier columns 3–7 are blank (strips to the empty
identifier) but which still validates against `emptyId2`. -/
def emptyId1 : String :=
  "1      U 98067A   25326.50000000  .00016717  00000-0  10270-3 0  9005"

/-- Line 2 matching `emptyId1` (blank identifier columns). -/
def emptyId2 : String :=
  "2        51.6400 208.5800 0002571  89.2100  53.4900 15.54225995123456"

/-- The record `parse_tle_line1` produces on `iss1` (used to witness the
fixed-column extraction claims). -/
def iss1Parsed : TleLine1 :=
  { line_number := 1, norad_id := "25544", classification := 'U',
    intl_designator := "98067A", epoch_year := 25,
    epoch_day := ratOfRep 32650000000 (-8),
    mean_motion_derivative := ratOfRep 16717 (-8),
    mean_motion_2nd_derivative := "00000-0", bstar := "10270-3",
    ephemeris_type := 0, element_number := 900, checksum := 5 }

/-- The record `parse_tle_line2` produces on `iss2`. -/
def iss2Parsed : TleLine2 :=
  { line_number := 2, norad_id := "25544",
    inclination := ratOfRep 516400 (-4), raan := ratOfRep 2085800 (-4),
    eccentricity := ratOfRep 2571 (-7), arg_of_perigee := ratOfRep 892100 (-4),
    mean_anomaly := ratOfRep 534900 (-4), mean_motion := ratOfRep 1554225995 (-8),
    revolution_number := 12345, checksum := 6 }

/-! ## Theorems -/

/-- Helper: with sufficient fuel, the `load_tles` cursor loop is the
Catalog Builder folded over the Record Grouper's output. -/
theorem loadTlesCore_eq_buildCatalog :
    ∀ (fuel : Nat) (d : TleDict) (w : List String) (lines : List String),
      lines.length ≤ fuel →
      loadTlesCore fuel d w lines = buildCatalog d w (groupLinesCore fuel lines) := by
  intro fuel
  induction fuel with
  | zero =>
    intro d w lines h
    have : lines = [] := List.eq_nil_of_length_eq_zero (Nat.le_zero.mp h)
    subst this
    rfl
  | succ fuel ih =>
    intro d w lines h
    rcases lines with _ | ⟨l0, _ | ⟨l1, _ | ⟨l2, rest⟩⟩⟩
    · rfl
    · rfl
    · rfl
    · have hlen : rest.length + 3 ≤ fuel + 1 := by simpa using h
      by_cases hp : pyStartsWith l0 "1 "
      · rcases hstep : loadTlesStep d w "Unknown" l0 l1 with ⟨d', w'⟩
        simp only [loadTlesCore, groupLinesCore, buildCatalog, hp, not_true_eq_false,
          if_false, hstep]
        exact ih d' w' (l2 :: rest) (by simp only [List.length_cons]; omega)
      · rcases hstep : loadTlesStep d w
          (if pyStartsWith l0 "0 " then pyStrip (pyDrop l0 2) else l0) l1 l2 with ⟨d', w'⟩
        simp only [loadTlesCore, groupLinesCore, buildCatalog, hp, not_false_eq_true,
          if_true, hstep]
        exact ih d' w' rest (by omega)

/-- C1: the single-epoch ingestion groups lines exactly by the cursor
heuristic — it is the Catalog Builder applied to the Record Grouper's
groups (the grouper stops with fewer than 2 lines left, cuts a 3-line
group with the `"0 "`-stripped name when at least 3 lines remain and the
current line does not start with `"1 "`, and otherwise cuts a 2-line
group named `"Unknown"`); `["SATX", line1, line2]` yields name `"SATX"`,
`[line1, line2]` yields name `"Unknown"`, and a one-line input yields an
empty catalog. -/
theorem claim_C1_grouping_heuristic :
    (∀ lines : List String, load_tles lines =
      ((buildCatalog [] [] (groupLines lines)).1,
        (buildCatalog [] [] (groupLines lines)).2,
        (buildCatalog [] [] (groupLines lines)).1.length)) ∧
    groupLines ["SATX", iss1, iss2] = [("SATX", iss1, iss2)] ∧
    groupLines ["0 SATX", iss1, iss2] = [("SATX", iss1, iss2)] ∧
    groupLines [iss1, iss2] = [("Unknown", iss1, iss2)] ∧
    load_tles ["SATX", iss1, iss2] = ([("25544", ("SATX", iss1, iss2))], [], 1) ∧
    load_tles [iss1, iss2] = ([("25544", ("Unknown", iss1, iss2))], [], 1) ∧
    (∀ l : String, load_tles [l] = ([], [], 0)) := by
  refine ⟨?_, by decide, by decide, by decide, by decide, by decide, ?_⟩
  · intro lines
    have h := loadTlesCore_eq_buildCatalog lines.length [] [] lines (le_refl _)
    unfold load_tles loadTlesAux
    rw [h]
    rcases hB : buildCatalog [] [] (groupLinesCore lines.length lines) with ⟨D, W⟩
    simp [groupLines, hB]
  · intro l
    rfl

theorem validate_tle_iff (l1 l2 : String) :
    validate_tle l1 l2 = true ↔
      (69 ≤ pyLen l1 ∧ 69 ≤ pyLen l2 ∧ pyGet l1 0 = '1' ∧ pyGet l2 0 = '2' ∧
        pyStrip (pySlice l1 2 7) = pyStrip (pySlice l2 2 7)) := by
  unfold validate_tle
  split_ifs with h1 h2 h3
  · simp only [Bool.or_eq_true, decide_eq_true_eq] at h1
    simp only [false_iff]
    rintro ⟨a, b, -⟩
    omega
  · simp only [Bool.not_eq_eq_eq_not, Bool.not_true, Bool.and_eq_false_iff,
      beq_eq_false_iff_ne, ne_eq] at h2
    simp only [false_iff]
    rintro ⟨-, -, c1, c2, -⟩
    rcases h2 with h2 | h2 <;> exact h2 (by assumption)
  · simp only [bne_iff_ne, ne_eq] at h3
    simp only [false_iff]
    rintro ⟨-, -, -, -, hid⟩
    exact h3 hid
  · simp only [Bool.or_eq_true, decide_eq_true_eq, not_or] at h1
    simp only [Bool.not_eq_eq_eq_not, Bool.not_true, Bool.and_eq_false_iff,
      beq_eq_false_iff_ne, ne_eq, not_or, not_not] at h2
    simp only [bne_iff_ne, ne_eq, not_not] at h3
    simp only [true_iff]
    exact ⟨by omega, by omega, h2.1, h2.2, h3⟩

theorem mem_dictInsert {e : String × String × String × String} {d : TleDict}
    {k : String} {v : String × String × String} (h : e ∈ dictInsert d k v) :
    e = (k, v) ∨ e ∈ d := by
  induction d with
  | nil => simpa [dictInsert] using h
  | cons hd tl ih =>
    rcases hd with ⟨k', v'⟩
    by_cases hk : k' = k
    · simp only [dictInsert, if_pos hk, List.mem_cons] at h
      rcases h with h | h
      · exact Or.inl h
      · exact Or.inr (List.mem_cons_of_mem _ h)
    · simp only [dictInsert, if_neg hk, List.mem_cons] at h
      rcases h with h | h
      · exact Or.inr (by simp [h])
      · rcases ih h with h' | h'
        · exact Or.inl h'
        · exact Or.inr (List.mem_cons_of_mem _ h')

theorem loadTlesStep_good {d : TleDict} {w : List String} {name l1 l2 : String}
    (hd : ∀ e ∈ d, goodEntry e) :
    ∀ e ∈ (loadTlesStep d w name l1 l2).1, goodEntry e := by
  intro e he
  unfold loadTlesStep at he
  by_cases hv : validate_tle l1 l2
  · by_cases hn : pyStrip (pySlice l1 2 7) = ""
    · simp [hv, hn] at he
      exact hd e he
    · simp [hv, hn] at he
      rcases mem_dictInsert he with h | h
      · subst h
        exact ⟨hn, rfl, ((validate_tle_iff l1 l2).mp hv).2.2.2.2, hv⟩
      · exact hd e h
  · simp [Bool.not_eq_true] at hv
    simp [hv] at he
    exact hd e he

theorem loadTlesCore_good :
    ∀ (fuel : Nat) (d : TleDict) (w lines : List String),
      (∀ e ∈ d, goodEntry e) → ∀ e ∈ (loadTlesCore fuel d w lines).1, goodEntry e := by
  intro fuel
  induction fuel with
  | zero =>
    intro d w lines hd
    rcases lines with _ | ⟨l0, _ | ⟨l1, _ | ⟨l2, rest⟩⟩⟩
    · exact hd
    · exact hd
    · exact loadTlesStep_good hd
    · exact hd
  | succ fuel ih =>
    intro d w lines hd
    rcases lines with _ | ⟨l0, _ | ⟨l1, _ | ⟨l2, rest⟩⟩⟩
    · exact hd
    · exact hd
    · exact loadTlesStep_good hd
    · by_cases hp : pyStartsWith l0 "1 "
      · rcases hstep : loadTlesStep d w "Unknown" l0 l1 with ⟨d', w'⟩
        simp only [loadTlesCore, hp, not_true_eq_false, if_false, hstep]
        refine ih d' w' (l2 :: rest) ?_
        have := @loadTlesStep_good d w "Unknown" l0 l1 hd
        rwa [hstep] at this
      · rcases hstep : loadTlesStep d w
          (if pyStartsWith l0 "0 " then pyStrip (pyDrop l0 2) else l0) l1 l2 with ⟨d', w'⟩
        simp only [loadTlesCore, hp, not_false_eq_true, if_true, hstep]
        refine ih d' w' rest ?_
        have := @loadTlesStep_good d w
          (if pyStartsWith l0 "0 " then pyStrip (pyDrop l0 2) else l0) l1 l2 hd
        rwa [hstep] at this

theorem loadTles_entries_good (lines : List String) :
    ∀ e ∈ (load_tles lines).1, goodEntry e := by
  intro e he
  have hgood := loadTlesCore_good lines.length [] [] lines (by simp)
  unfold load_tles loadTlesAux at he
  rcases hA : loadTlesCore lines.length [] [] lines with ⟨D, W⟩
  rw [hA] at he hgood
  exact hgood e he

/-- C2: `validate_tle` passes exactly when both lines are at least 69
characters, line1 starts with `'1'`, line2 starts with `'2'`, and the
trimmed identifier slices at 1-indexed columns 3–7 agree; consequently
every pair stored by `load_tles` has agreeing identifier slices, so a
pair with differing identifiers is absent from the catalog. -/
theorem claim_C2_validator :
    (∀ l1 l2 : String, validate_tle l1 l2 = true ↔
      (69 ≤ pyLen l1 ∧ 69 ≤ pyLen l2 ∧ pyGet l1 0 = '1' ∧ pyGet l2 0 = '2' ∧
        pyStrip (colSlice l1 3 7) = pyStrip (colSlice l2 3 7))) ∧
    (∀ (lines : List String) (k name l1 l2 : String),
      (k, name, l1, l2) ∈ (load_tles lines).1 →
      pyStrip (colSlice l1 3 7) = pyStrip (colSlice l2 3 7)) := by
  refine ⟨validate_tle_iff, ?_⟩
  intro lines k name l1 l2 hmem
  obtain ⟨-, h1, h2, -⟩ := loadTles_entries_good lines _ hmem
  unfold colSlice
  rw [show (3 : Nat) - 1 = 2 from rfl, ← h1, ← h2]

/-- Witness for C2 at the ISS pair: the validator passes and the stored
pair's identifier slices agree. -/
theorem claim_C2_validator_witness :
    validate_tle iss1 iss2 = true ∧
      pyStrip (colSlice iss1 3 7) = pyStrip (colSlice iss2 3 7) :=
  ⟨(claim_C2_validator.1 iss1 iss2).mpr
      ⟨by decide, by decide, by decide, by decide, by decide⟩,
   claim_C2_validator.2 [issName, iss1, iss2] "25544" issName iss1 iss2 (by decide)⟩

/-- C10: every entry `id → (name, line1, line2)` of the mapping returned
by `load_tles` has a non-empty key equal to the trimmed column-3–7
identifier slice of both stored lines, lines of length at least 69
starting with `'1'` and `'2'` respectively — i.e. the stored pair
validates and the key is derived from the stored line1. -/
theorem claim_C10_catalog_invariant :
    ∀ (lines : List String) (k name l1 l2 : String),
      (k, name, l1, l2) ∈ (load_tles lines).1 →
      k ≠ "" ∧ k = pyStrip (colSlice l1 3 7) ∧ k = pyStrip (colSlice l2 3 7) ∧
        69 ≤ pyLen l1 ∧ 69 ≤ pyLen l2 ∧ pyGet l1 0 = '1' ∧ pyGet l2 0 = '2' ∧
        validate_tle l1 l2 = true := by
  intro lines k name l1 l2 hmem
  obtain ⟨hne, h1, h2, hv⟩ := loadTles_entries_good lines _ hmem
  have hiff := (validate_tle_iff l1 l2).mp hv
  exact ⟨hne, h1, h2, hiff.1, hiff.2.1, hiff.2.2.1, hiff.2.2.2.1, hv⟩

/-- Witness for C10 at the ISS catalog entry. -/
theorem claim_C10_catalog_invariant_witness :
    ("25544" : String) ≠ "" ∧ ("25544" : String) = pyStrip (colSlice iss1 3 7) ∧
      ("25544" : String) = pyStrip (colSlice iss2 3 7) ∧ 69 ≤ pyLen iss1 ∧
      69 ≤ pyLen iss2 ∧ pyGet iss1 0 = '1' ∧ pyGet iss2 0 = '2' ∧
      validate_tle iss1 iss2 = true :=
  claim_C10_catalog_invariant [issName, iss1, iss2] "25544" issName iss1 iss2 (by decide)

/-- C8: once a line list has been obtained, ingestion is total — the
full call errors exactly as the normalizer does; a group failing
validation contributes one warning naming the candidate and processing
continues with the remaining groups; a concrete catalog mixing valid and
malformed records returns every well-delimited valid record with one
warning for the malformed one. -/
theorem claim_C8_partial_success :
    (∀ (src : Source) (lines : List String), lines_from_source src = .ok lines →
      load_tles_from_source src = .ok (load_tles lines)) ∧
    (∀ (src : Source) (e : SourceError), lines_from_source src = .error e →
      load_tles_from_source src = .error e) ∧
    (∀ (d : TleDict) (w : List String) (name l1 l2 : String)
        (gs : List (String × String × String)), validate_tle l1 l2 = false →
      buildCatalog d w ((name, l1, l2) :: gs) =
        buildCatalog d (w ++ ["Invalid TLE format, skipping: " ++ name]) gs) ∧
    load_tles [issName, iss1, iss2, "BROKEN SAT", "1 0000", "2 0000",
        "SAT B", satb1, satb2]
      = ([("25544", (issName, iss1, iss2)), ("00005", ("SAT B", satb1, satb2))],
         ["Invalid TLE format, skipping: BROKEN SAT"], 2) := by
  refine ⟨?_, ?_, ?_, by decide⟩
  · intro src lines h
    unfold load_tles_from_source
    rw [h]
  · intro src e h
    unfold load_tles_from_source
    rw [h]
  · intro d w name l1 l2 gs hv
    simp [buildCatalog, loadTlesStep, hv]

/-- Witness for C8: a trivially accepted source, and one skipped
malformed group producing its warning. -/
theorem claim_C8_partial_success_witness :
    load_tles_from_source (.bytes []) = .ok (load_tles []) ∧
    buildCatalog [] [] [("BROKEN SAT", "1 0000", "2 0000")] =
      buildCatalog [] ([] ++ ["Invalid TLE format, skipping: " ++ "BROKEN SAT"]) [] :=
  ⟨claim_C8_partial_success.1 (.bytes []) [] (by decide),
   claim_C8_partial_success.2.2.1 [] [] "BROKEN SAT" "1 0000" "2 0000" [] (by decide)⟩

/-- Helper: a one-character Python slice `s[i:i+1]` is the character at
index `i`, whenever `i` is in range. -/
theorem pySlice_one {l : String} {i : Nat} (h : i < pyLen l) :
    pySlice l i (i + 1) = ⟨[pyGet l i]⟩ := by
  unfold pySlice pyGet pyLen at *
  congr 1
  rw [show i + 1 - i = 1 from by omega, List.take_one_drop_eq_of_lt_length h]
  simp [List.getD, List.getElem?_eq_getElem h]

/-- C9: `parse_tle_line1` and `parse_tle_line2` raise a malformed-element
error (`ValueError` with the too-short message) whenever the given line
is shorter than 69 characters, independently of the validator. -/
theorem claim_C9_length_guard :
    ∀ l : String, pyLen l < 69 →
      parse_tle_line1 l
        = .error ("TLE line 1 too short: " ++ toString (pyLen l) ++ " < 69") ∧
      parse_tle_line2 l
        = .error ("TLE line 2 too short: " ++ toString (pyLen l) ++ " < 69") := by
  intro l h
  constructor
  · unfold parse_tle_line1
    rw [if_pos h]
  · unfold parse_tle_line2
    rw [if_pos h]

/-- Helper: every field of a successful `parse_tle_line1` comes from the
spec's 1-indexed fixed column ranges. -/
theorem parse1_fields (l : String) (r : TleLine1) (h : parse_tle_line1 l = .ok r) :
    pyInt? (colSlice l 19 20) = some r.epoch_year ∧
    pyFloat? (colSlice l 21 32) = some r.epoch_day ∧
    pyFloat? (colSlice l 34 43) = some r.mean_motion_derivative ∧
    r.mean_motion_2nd_derivative = pyStrip (colSlice l 45 52) ∧
    r.bstar = pyStrip (colSlice l 54 61) ∧
    pyInt? (colSlice l 63 63) = some r.ephemeris_type ∧
    pyInt? (colSlice l 65 68) = some r.element_number ∧
    pyInt? (colSlice l 69 69) = some r.checksum := by
  unfold parse_tle_line1 at h
  split at h
  · exact absurd h (by simp)
  next h69 =>
    split at h
    next ln ey ed mmd et en ck hln hey hed hmmd het hen hck =>
      injection h with h
      subst h
      have h62 : 62 < pyLen l := by omega
      have h68 : 68 < pyLen l := by omega
      refine ⟨hey, hed, hmmd, rfl, rfl, ?_, hen, ?_⟩
      · rw [show colSlice l 63 63 = pySlice l 62 (62 + 1) from rfl, pySlice_one h62]
        exact het
      · rw [show colSlice l 69 69 = pySlice l 68 (68 + 1) from rfl, pySlice_one h68]
        exact hck
    next =>
      exact absurd h (by simp)

/-- Helper: every field of a successful `parse_tle_line2` comes from the
spec's 1-indexed fixed column ranges. -/
theorem parse2_fields (l : String) (r : TleLine2) (h : parse_tle_line2 l = .ok r) :
    pyFloat? (colSlice l 9 16) = some r.inclination ∧
    pyFloat? (colSlice l 18 25) = some r.raan ∧
    pyFloat? (⟨['0', '.']⟩ ++ colSlice l 27 33) = some r.eccentricity ∧
    pyFloat? (colSlice l 35 42) = some r.arg_of_perigee ∧
    pyFloat? (colSlice l 44 51) = some r.mean_anomaly ∧
    pyFloat? (colSlice l 53 63) = some r.mean_motion ∧
    pyInt? (colSlice l 64 68) = some r.revolution_number ∧
    pyInt? (colSlice l 69 69) = some r.checksum := by
  unfold parse_tle_line2 at h
  split at h
  · exact absurd h (by simp)
  next h69 =>
    split at h
    next ln incl ra ecc ap ma mm rn ck hln hincl hra hecc hap hma hmm hrn hck =>
      injection h with h
      subst h
      have h68 : 68 < pyLen l := by omega
      refine ⟨hincl, hra, hecc, hap, hma, hmm, hrn, ?_⟩
      rw [show colSlice l 69 69 = pySlice l 68 (68 + 1) from rfl, pySlice_one h68]
      exact hck
    next =>
      exact absurd h (by simp)

/-- Helper: the parsed ISS line2 has the spec's inclination,
eccentricity and mean motion. -/
theorem iss2_values :
    ((parse_tle_line2 iss2).map fun r => (r.inclination, r.eccentricity, r.mean_motion))
      = .ok ((51.64 : ℚ), (0.0002571 : ℚ), (15.54225995 : ℚ)) := by
  have hmap : parse_tle_line2 iss2 = .ok iss2Parsed := by decide
  rw [hmap]
  unfold iss2Parsed
  have e1 : ratOfRep 516400 (-4) = (51.64 : ℚ) := by
    unfold ratOfRep
    rw [if_neg (by omega), Rat.mkRat_eq_div,
      show ((-(-4 : Int)).toNat) = 4 from by decide]
    norm_num
  have e2 : ratOfRep 2571 (-7) = (0.0002571 : ℚ) := by
    unfold ratOfRep
    rw [if_neg (by omega), Rat.mkRat_eq_div,
      show ((-(-7 : Int)).toNat) = 7 from by decide]
    norm_num
  have e3 : ratOfRep 1554225995 (-8) = (15.54225995 : ℚ) := by
    unfold ratOfRep
    rw [if_neg (by omega), Rat.mkRat_eq_div,
      show ((-(-8 : Int)).toNat) = 8 from by decide]
    norm_num
  simp [Except.map, e1, e2, e3]

/-- Witness for C9 at the empty string. -/
theorem claim_C9_length_guard_witness :
    pyLen "" < 69 ∧
      parse_tle_line1 ""
        = .error ("TLE line 1 too short: " ++ toString (pyLen "") ++ " < 69") ∧
      parse_tle_line2 ""
        = .error ("TLE line 2 too short: " ++ toString (pyLen "") ++ " < 69") :=
  ⟨by decide, claim_C9_length_guard "" (by decide)⟩

/-- C3: `parse_tle_line1` / `parse_tle_line2` decode each field at the
spec's fixed 1-indexed column ranges (line1: epoch year 19–20, epoch day
21–32, first mean-motion derivative 34–43, second derivative 45–52 and
B* 54–61 kept as raw strings, ephemeris type 63, element set number
65–68, checksum 69; line2: inclination 9–16, RAAN 18–25, eccentricity
27–33 as `"0." + digits`, argument of perigee 35–42, mean anomaly 44–51,
mean motion 53–63, revolution number 64–68, checksum 69); on the ISS
scenario the catalog is `{"25544": ("ISS (ZARYA)", line1, line2)}` with
inclination 51.64, eccentricity 0.0002571 and mean motion 15.54225995. -/
theorem claim_C3_fixed_columns :
    (∀ (l : String) (r : TleLine1), parse_tle_line1 l = .ok r →
      pyInt? (colSlice l 19 20) = some r.epoch_year ∧
      pyFloat? (colSlice l 21 32) = some r.epoch_day ∧
      pyFloat? (colSlice l 34 43) = some r.mean_motion_derivative ∧
      r.mean_motion_2nd_derivative = pyStrip (colSlice l 45 52) ∧
      r.bstar = pyStrip (colSlice l 54 61) ∧
      pyInt? (colSlice l 63 63) = some r.ephemeris_type ∧
      pyInt? (colSlice l 65 68) = some r.element_number ∧
      pyInt? (colSlice l 69 69) = some r.checksum) ∧
    (∀ (l : String) (r : TleLine2), parse_tle_line2 l = .ok r →
      pyFloat? (colSlice l 9 16) = some r.inclination ∧
      pyFloat? (colSlice l 18 25) = some r.raan ∧
      pyFloat? (⟨['0', '.']⟩ ++ colSlice l 27 33) = some r.eccentricity ∧
      pyFloat? (colSlice l 35 42) = some r.arg_of_perigee ∧
      pyFloat? (colSlice l 44 51) = some r.mean_anomaly ∧
      pyFloat? (colSlice l 53 63) = some r.mean_motion ∧
      pyInt? (colSlice l 64 68) = some r.revolution_number ∧
      pyInt? (colSlice l 69 69) = some r.checksum) ∧
    load_tles [issName, iss1, iss2] = ([("25544", (issName, iss1, iss2))], [], 1) ∧
    ((parse_tle_line2 iss2).map fun r => (r.inclination, r.eccentricity, r.mean_motion))
      = .ok ((51.64 : ℚ), (0.0002571 : ℚ), (15.54225995 : ℚ)) :=
  ⟨parse1_fields, parse2_fields, by decide, iss2_values⟩

/-- Witness for C3 at the ISS line1 and its parsed record. -/
theorem claim_C3_fixed_columns_witness :
    pyInt? (colSlice iss1 19 20) = some iss1Parsed.epoch_year ∧
    pyFloat? (colSlice iss1 21 32) = some iss1Parsed.epoch_day ∧
    pyFloat? (colSlice iss1 34 43) = some iss1Parsed.mean_motion_derivative ∧
    iss1Parsed.mean_motion_2nd_derivative = pyStrip (colSlice iss1 45 52) ∧
    iss1Parsed.bstar = pyStrip (colSlice iss1 54 61) ∧
    pyInt? (colSlice iss1 63 63) = some iss1Parsed.ephemeris_type ∧
    pyInt? (colSlice iss1 65 68) = some iss1Parsed.element_number ∧
    pyInt? (colSlice iss1 69 69) = some iss1Parsed.checksum :=
  claim_C3_fixed_columns.1 iss1 iss1Parsed (by decide)

/-- Helper: Python strip is idempotent on character lists. -/
theorem pyStripChars_idem (l : List Char) :
    pyStripChars (pyStripChars l) = pyStripChars l := by
  have hdef : ∀ m : List Char,
      pyStripChars m = List.rdropWhile pyIsSpace (List.dropWhile pyIsSpace m) :=
    fun m => rfl
  rw [hdef, hdef]
  have h1 : List.dropWhile pyIsSpace
      (List.rdropWhile pyIsSpace (List.dropWhile pyIsSpace l))
      = List.rdropWhile pyIsSpace (List.dropWhile pyIsSpace l) := by
    rw [List.dropWhile_eq_self_iff]
    intro hl hp
    have hpre := List.rdropWhile_prefix pyIsSpace (List.dropWhile pyIsSpace l)
    have h0 : 0 < (List.dropWhile pyIsSpace l).length :=
      lt_of_lt_of_le hl hpre.length_le
    have hg : (List.rdropWhile pyIsSpace (List.dropWhile pyIsSpace l)).get ⟨0, hl⟩
        = (List.dropWhile pyIsSpace l).get ⟨0, h0⟩ := by
      simp only [List.get_eq_getElem]
      exact hpre.getElem hl
    rw [hg] at hp
    exact (List.dropWhile_eq_self_iff.mp (List.dropWhile_idempotent pyIsSpace l) h0) hp
  rw [h1, List.rdropWhile_idempotent]

/-- Helper: Python `str.strip` is idempotent. -/
theorem pyStrip_idem (s : String) : pyStrip (pyStrip s) = pyStrip s := by
  unfold pyStrip
  exact congrArg String.mk (pyStripChars_idem s.data)

/-- Helper: every line surviving the strip-and-filter pipeline is
already stripped and non-empty. -/
theorem stripFilter_stripped (ls : List String) :
    ∀ l ∈ stripFilter ls, pyStrip l = l ∧ l ≠ "" := by
  intro l hl
  unfold stripFilter at hl
  rw [List.mem_filter] at hl
  obtain ⟨hmem, hne⟩ := hl
  rw [List.mem_map] at hmem
  obtain ⟨x, -, hx⟩ := hmem
  subst hx
  exact ⟨pyStrip_idem x, by simpa using hne⟩

/-- C7 (amended): the Line Normalizer decodes the source's bytes as
UTF-8 with invalid byte sequences dropped (`errors='ignore'`) rather
than raising, fails with the not-found error exactly when given a path
that does not exist, fails with the unsupported-source error exactly for
a source that is neither a path, a byte buffer, nor a readable object,
and for accepted sources returns whitespace-trimmed non-empty lines in
order.  (The original claim said invalid sequences are replaced; the
counterexample shows they are dropped.) -/
theorem claim_C7_line_normalizer :
    (∀ c : List Nat, lines_from_source (.bytes c)
        = .ok (stripFilter (pySplitlines (decodeUtf8Ignore c)))) ∧
    (∀ (ex : Bool) (c : List Nat),
        lines_from_source (.path ex c) = .error .fileNotFound ↔ ex = false) ∧
    (∀ src : Source, lines_from_source src = .error .unsupported ↔ src = .other) ∧
    (∀ (src : Source) (ls : List String), lines_from_source src = .ok ls →
        ∀ l ∈ ls, pyStrip l = l ∧ l ≠ "") := by
  refine ⟨fun c => rfl, ?_, ?_, ?_⟩
  · intro ex c
    cases ex <;> simp [lines_from_source]
  · intro src
    cases src with
    | path ex c => cases ex <;> simp [lines_from_source]
    | bytes c => simp [lines_from_source]
    | stream r => cases r <;> simp [lines_from_source]
    | other => simp [lines_from_source]
  · intro src ls h
    cases src with
    | path ex c =>
      cases ex
      · simp [lines_from_source] at h
      · simp [lines_from_source] at h
        subst h
        exact stripFilter_stripped _
    | bytes c =>
      simp [lines_from_source] at h
      subst h
      exact stripFilter_stripped _
    | stream r =>
      cases r <;> simp [lines_from_source] at h <;> subst h <;>
        exact stripFilter_stripped _
    | other => simp [lines_from_source] at h

/-- C7 counterexample: on the byte source `b"A\xffB"` the normalizer
yields the line `"AB"` — the invalid byte is dropped — while the
replace-decoding the claim asserts would yield `"A\uFFFDB"`. -/
theorem claim_C7_line_normalizer_cex :
    lines_from_source (.bytes [65, 255, 66]) = .ok ["AB"] ∧
    stripFilter (pySplitlines (decodeUtf8Replace [65, 255, 66])) = ["A�B"] ∧
    ("AB" : String) ≠ "A�B" := by decide

/-- Witness for the amended C7. -/
theorem claim_C7_line_normalizer_witness :
    (lines_from_source (.path false []) = .error .fileNotFound ↔ false = false) ∧
    (lines_from_source .other = .error .unsupported ↔ Source.other = .other) ∧
    (pyStrip "AB" = "AB" ∧ ("AB" : String) ≠ "") :=
  ⟨claim_C7_line_normalizer.2.1 false [],
   claim_C7_line_normalizer.2.2.1 .other,
   claim_C7_line_normalizer.2.2.2 (.bytes [65, 255, 66]) ["AB"] (by decide) "AB" (by decide)⟩

/-- C4 (amended): the Catalog Builder step skips a validated record
whose identifier strips to empty *without* recording a warning; a later
record with the same identifier overwrites the earlier one (and other
keys are untouched); the call returns the final mapping, and the count
it logs equals the number of entries in the final mapping (not the
number of records ingested).  (The original claim asserted a warning for
the empty-identifier skip and a count of records ingested; the
counterexample refutes both.) -/
theorem claim_C4_catalog_builder :
    (∀ (d : TleDict) (w : List String) (name l1 l2 : String),
        validate_tle l1 l2 = true → pyStrip (pySlice l1 2 7) = "" →
        loadTlesStep d w name l1 l2 = (d, w)) ∧
    (∀ (d : TleDict) (k : String) (v : String × String × String),
        dictLookup (dictInsert d k v) k = some v) ∧
    (∀ (d : TleDict) (k k' : String) (v : String × String × String), k' ≠ k →
        dictLookup (dictInsert d k v) k' = dictLookup d k') ∧
    (∀ lines : List String, (load_tles lines).2.2 = (load_tles lines).1.length) := by
  refine ⟨?_, ?_, ?_, ?_⟩
  · intro d w name l1 l2 hv hn
    unfold loadTlesStep
    simp [hv, hn]
  · intro d k v
    induction d with
    | nil => simp [dictInsert, dictLookup]
    | cons hd tl ih =>
      rcases hd with ⟨k0, v0⟩
      by_cases hk : k0 = k
      · simp [dictInsert, dictLookup, hk]
      · simp [dictInsert, dictLookup, hk, ih]
  · intro d k k' v hne
    induction d with
    | nil => simp [dictInsert, dictLookup, Ne.symm hne]
    | cons hd tl ih =>
      rcases hd with ⟨k0, v0⟩
      by_cases hk : k0 = k
      · subst hk
        simp [dictInsert, dictLookup, Ne.symm hne]
      · by_cases hk' : k0 = k'
        · subst hk'
          simp [dictInsert, dictLookup, hk]
        · simp [dictInsert, dictLookup, hk, hk', ih]
  · intro lines
    unfold load_tles
    rcases loadTlesAux [] [] lines with ⟨D, W⟩
    rfl

/-- C4 counterexample: `emptyId1`/`emptyId2` validate and their
identifier strips to empty, yet the run stores nothing for them and the
warning list is empty; the input ingests three validated records (one
skipped, two sharing a key) while the returned count is 1 — the final
mapping's size, not the records ingested. -/
theorem claim_C4_catalog_builder_cex :
    validate_tle emptyId1 emptyId2 = true ∧
    pyStrip (pySlice emptyId1 2 7) = "" ∧
    load_tles ["EMPTY", emptyId1, emptyId2, "DUP A", iss1, iss2, "DUP B", iss1, iss2]
      = ([("25544", ("DUP B", iss1, iss2))], [], 1) := by decide

/-- Witness for the amended C4. -/
theorem claim_C4_catalog_builder_witness :
    loadTlesStep [] [] "EMPTY" emptyId1 emptyId2 = ([], []) ∧
    dictLookup (dictInsert [("25544", ("A", iss1, iss2))] "25544" ("B", iss1, iss2))
      "25544" = some ("B", iss1, iss2) ∧
    dictLookup (dictInsert [] "25544" ("B", iss1, iss2)) "00005" = dictLookup [] "00005" ∧
    (load_tles [issName, iss1, iss2]).2.2 = (load_tles [issName, iss1, iss2]).1.length :=
  ⟨claim_C4_catalog_builder.1 [] [] "EMPTY" emptyId1 emptyId2 (by decide) (by decide),
   claim_C4_catalog_builder.2.1 [("25544", ("A", iss1, iss2))] "25544" ("B", iss1, iss2),
   claim_C4_catalog_builder.2.2.1 [] "25544" "00005" ("B", iss1, iss2) (by decide),
   claim_C4_catalog_builder.2.2.2 [issName, iss1, iss2]⟩

/-- C5: in `read_multi_epoch_tle_file` a two-digit epoch year `y`
decodes to `2000 + y` when `y < 57` and `1900 + y` otherwise (56 ↦ 2056,
57 ↦ 1957), and a matched record's label is
`"{name} @ {year}:{day:.2f}"` built from the decoded year and the
fractional day-of-year. -/
theorem claim_C5_epoch_pivot :
    (∀ y : Int, pivotYear y = if y < 57 then 2000 + y else 1900 + y) ∧
    pivotYear 56 = 2056 ∧ pivotYear 57 = 1957 ∧
    (∀ (name epoch_val : String) (y : Int) (day : ℚ),
        pyInt? (pySlice epoch_val 0 2) = some y →
        pyFloat? (pyDrop epoch_val 2) = some day →
        epochLabel name epoch_val
          = name ++ " @ " ++ toString (pivotYear y) ++ ⟨[':']⟩ ++ fmt2 day) ∧
    read_multi_epoch_tle_file [issName, iss1, iss2]
      = [(issName, [("ISS (ZARYA) @ 2025:326.50", iss1, iss2)])] := by
  refine ⟨fun y => rfl, by decide, by decide, ?_, by decide⟩
  intro name epoch_val y day h1 h2
  unfold epochLabel
  rw [h1, h2]

/-- Witness for C5 at the ISS epoch string. -/
theorem claim_C5_epoch_pivot_witness :
    epochLabel issName "25326.50000000"
      = issName ++ " @ " ++ toString (pivotYear 25) ++ ⟨[':']⟩
        ++ fmt2 (ratOfRep 32650000000 (-8)) :=
  claim_C5_epoch_pivot.2.2.2.1 issName "25326.50000000" 25 (ratOfRep 32650000000 (-8))
    (by decide) (by decide)

/-- C6: the multi-epoch indexer always consumes fixed (name, line1,
line2) triples, silently dropping 1–2 trailing lines; a line1 that does
not match the epoch pattern degrades the label to
`"{name} @ unknown"`; records group by exact name equality in input
order, so the same name in two consecutive triples yields exactly one
key with a 2-element ordered list. -/
theorem claim_C6_multi_epoch_indexer :
    (∀ (d : MultiDict) (gs : List (String × String × String)) (extra : List String),
        extra.length ≤ 2 →
        readMultiEpochAux d (tripleLines gs ++ extra) = readMultiEpochAux d (tripleLines gs)) ∧
    (∀ (d : MultiDict) (name l1 l2 : String) (rest : List String),
        matchEpoch l1 = none →
        readMultiEpochAux d (name :: l1 :: l2 :: rest)
          = readMultiEpochAux (multiAppend d name (name ++ " @ unknown", l1, l2)) rest) ∧
    read_multi_epoch_tle_file [issName, iss1, iss2, issName, iss1, iss2]
      = [(issName, [("ISS (ZARYA) @ 2025:326.50", iss1, iss2),
                    ("ISS (ZARYA) @ 2025:326.50", iss1, iss2)])] := by
  refine ⟨?_, ?_, by decide⟩
  · intro d gs extra hx
    induction gs generalizing d with
    | nil =>
      rcases extra with _ | ⟨a, _ | ⟨b, _ | ⟨c, r⟩⟩⟩
      · rfl
      · rfl
      · rfl
      · simp at hx
    | cons g gs ih =>
      rcases g with ⟨n, a, b⟩
      simp only [tripleLines, List.flatMap_cons, List.cons_append, List.append_assoc]
      simp only [readMultiEpochAux]
      exact ih (multiAppend d n (epochLabel n ((matchEpoch a).getD "unknown"), a, b))
  · intro d name l1 l2 rest h
    simp only [readMultiEpochAux, h, Option.getD_none]
    have hlbl : epochLabel name "unknown" = name ++ " @ unknown" := by
      unfold epochLabel
      rw [show pyInt? (pySlice "unknown" 0 2) = none from by decide]
      have : (" @ " : String) ++ "unknown" = " @ unknown" := by decide
      rw [← this]
      exact congrArg String.mk (List.append_assoc name.data " @ ".data "unknown".data)
    rw [hlbl]

/-- Witness for C6: a dropped trailing line and an unmatched epoch. -/
theorem claim_C6_multi_epoch_indexer_witness :
    readMultiEpochAux [] (tripleLines [(issName, iss1, iss2)] ++ ["TRAILING"])
      = readMultiEpochAux [] (tripleLines [(issName, iss1, iss2)]) ∧
    readMultiEpochAux [] ["SAT", "garbage", "more garbage"]
      = readMultiEpochAux (multiAppend [] "SAT" ("SAT" ++ " @ unknown", "garbage", "more garbage")) [] :=
  ⟨claim_C6_multi_epoch_indexer.1 [] [(issName, iss1, iss2)] ["TRAILING"] (by decide),
   claim_C6_multi_epoch_indexer.2.1 [] "SAT" "garbage" "more garbage" [] (by decide)⟩
